import Mathlib

/-!
Verification of the fyrd batch-system core (SLURM backend and registry)
against its natural-language specification.

The definitions below are a shallow embedding of the Python source in
`fyrd/batch_systems/slurm.py` and `fyrd/batch_systems/__init__.py`.
Python strings become `String`, Python `None`-or-value fields become
`Option`/`PyObj`, and code that can raise becomes `Except PyErr`.
External effects (running commands, the `pwd` database, the config file,
`which` lookups) are passed in as explicit parameters, so every function
here is executable on concrete inputs.
-/

namespace Fyrd

/-! ## Python string semantics helpers -/

/-- Drop leading characters satisfying `p` (left part of Python `strip`). -/
def stripLeft (p : Char → Bool) (cs : List Char) : List Char :=
  cs.dropWhile p

/-- Drop trailing characters satisfying `p` (Python `rstrip`). -/
def stripRight (p : Char → Bool) (cs : List Char) : List Char :=
  (cs.reverse.dropWhile p).reverse

/-- Drop characters satisfying `p` from both ends (Python `strip`). -/
def stripBoth (p : Char → Bool) (cs : List Char) : List Char :=
  stripRight p (stripLeft p cs)

/-- Python `str.strip()` with no arguments: remove surrounding whitespace. -/
def pyStrip (s : String) : String :=
  ⟨stripBoth Char.isWhitespace s.toList⟩

/-- Python `str.rstrip()` with no arguments: remove trailing whitespace. -/
def pyRstrip (s : String) : String :=
  ⟨stripRight Char.isWhitespace s.toList⟩

/-- Python `str.strip(chars)`: remove surrounding characters drawn from `set`. -/
def pyStripSet (s : String) (set : List Char) : String :=
  ⟨stripBoth (fun c => set.contains c) s.toList⟩

/-- Core of Python `str.split(sep)` for a one-character separator, on char
lists.  Keeps empty pieces, and splitting the empty string gives `[[]]`,
exactly as in Python. -/
def splitOnChar (c : Char) : List Char → List (List Char)
  | [] => [[]]
  | x :: xs =>
    let r := splitOnChar c xs
    if x = c then [] :: r
    else
      match r with
      | h :: t => (x :: h) :: t
      | [] => [[x]]

/-- Python `s.split(c)` for a single-character separator `c`. -/
def pySplit (s : String) (c : Char) : List String :=
  (splitOnChar c s.toList).map (fun l => ⟨l⟩)

/-- Python slice `s[a:b]` for `0 ≤ a ≤ b` (out-of-range indices are clipped). -/
def pySlice (s : String) (a b : Nat) : String :=
  ⟨(s.toList.drop a).take (b - a)⟩

/-- Python `lst[-1]` on the (never empty) result of `str.split`. -/
def pyLast (l : List String) : String :=
  l.getLast?.getD ""

/-- Python `c in s` for a single character. -/
def pyContains (s : String) (c : Char) : Bool :=
  s.toList.contains c

/-- Python `str.lower()` (ASCII behaviour). -/
def pyLower (s : String) : String :=
  ⟨s.toList.map Char.toLower⟩

/-- Python `str.isdigit()` (ASCII behaviour): nonempty and all digits. -/
def pyIsDigit (s : String) : Bool :=
  !s.toList.isEmpty && s.toList.all Char.isDigit

/-- Digit accumulator for `pyInt?`.  Accepts the Python 3 rule that single
underscores may appear between digits. -/
def digCore : List Char → Nat → Option Nat
  | [], acc => some acc
  | '_' :: d :: rest, acc =>
    if d.isDigit then digCore rest (10 * acc + (d.toNat - 48)) else none
  | ['_'], _ => none
  | c :: rest, acc =>
    if c.isDigit then digCore rest (10 * acc + (c.toNat - 48)) else none

/-- Parse an unsigned decimal literal the way Python `int()` does (digits
with optional single underscores between them). -/
def digitsVal : List Char → Option Nat
  | [] => none
  | c :: rest => if c.isDigit then digCore rest (c.toNat - 48) else none

/-- Python `int(s)`: strip whitespace, optional sign, decimal digits.
`none` models the `ValueError` raised on malformed input. -/
def pyInt? (s : String) : Option Int :=
  match stripBoth Char.isWhitespace s.toList with
  | '+' :: rest => (digitsVal rest).map Int.ofNat
  | '-' :: rest => (digitsVal rest).map (fun n => -(n : Int))
  | cs => (digitsVal cs).map Int.ofNat

/-- Truthiness of an optional Python string argument (`None` and the empty
string are falsy). -/
def pyTruthyOpt (o : Option String) : Bool :=
  match o with
  | none => false
  | some s => !(s == "")

/-! ## Python values flowing through the queue rows

The tuples built by `queue_parser` mix strings, ints and `None`
(e.g. the exit code of an appended `sacct` row is already an `int`, while
the same field of an `squeue` row is still a string), so row entries are
modelled by a small sum type. -/

/-- A Python value appearing in a queue row: `None`, a string, or an int. -/
inductive PyObj where
  | pnone
  | pstr (s : String)
  | pint (n : Int)
  deriving DecidableEq, Inhabited, Repr

/-- Python truthiness for `PyObj`. -/
def PyObj.truthy : PyObj → Bool
  | .pnone => false
  | .pstr s => !(s == "")
  | .pint n => !(n == 0)

/-- Wrap a `str`-or-`None` Python value as a `PyObj`. -/
def optObj : Option String → PyObj
  | some s => .pstr s
  | none => .pnone

/-- The Python exceptions the embedded code can raise. -/
inductive PyErr where
  | valueError (msg : String)
  | clusterError (msg : String)
  | batchSystemError (msg : String)
  | keyError
  | attributeError
  | typeError (msg : String)
  | calledProcessError
  | cmdFailure
  deriving DecidableEq, Repr

/-! ## SlurmServer.normalize_job_id (slurm.py lines 99-107)

`job_id.split('_')` with no maxsplit produces one piece per underscore, and
the two-variable unpacking raises `ValueError` unless there are exactly two
pieces; that failure mode is modelled by `Except.error`. -/

/-- Embedding of `SlurmServer.normalize_job_id` (identical to
`SlurmClient.normalize_job_id`, slurm.py lines 409-417). -/
def normalize_job_id (job_id : String) : Except PyErr (String × Option String) :=
  if pyContains job_id '_' then
    match pySplit job_id '_' with
    | [a, b] => .ok (pyStrip a, some (pyStrip b))
    | _ => .error (.valueError "too many values to unpack")
  else .ok (job_id, none)

/-! ## Node-list expansion (slurm.py lines 240, 344-367)

`queue_parser` compiles `nodequery = re.compile(r'([^\[,]+)(\[[^\[]+\])?')`
and walks `nodequery.findall(sndlst)`.  The scanner below reproduces
`findall` for exactly this pattern: group 1 is a maximal nonempty run of
characters other than `[` and `,`; group 2 optionally matches `[`,
a greedy nonempty run of non-`[` characters, then `]` (greediness means the
run ends at the last `]` of the bracket-free stretch). -/

/-- A character matched by `[^\[,]` (group 1 of `nodequery`). -/
def nameChar (c : Char) : Bool :=
  !(c == '[') && !(c == ',')

/-- Largest index `j ≥ 1` of `run` holding `]` — where the greedy
`[^\[]+` of group 2 backtracks to so that the final `\]` can match. -/
def lastCloseIdx (run : List Char) : Option Nat :=
  ((List.range run.length).filter
    (fun j => decide (1 ≤ j) && (run.getD j ' ' == ']'))).getLast?

/-- Try to match `\[[^\[]+\]` at `cs` (positioned just after the opening
`[`).  Returns the matched group-2 text (including both brackets) and the
remaining input. -/
def findBracket (cs : List Char) : Option (List Char × List Char) :=
  let run := cs.takeWhile (fun c => !(c == '['))
  match lastCloseIdx run with
  | some j => some ('[' :: run.take (j + 1), run.drop (j + 1) ++ cs.drop run.length)
  | none => none

/-- One scan step of `nodequery.findall`; `fuel` bounds recursion depth and
is always called with at least the length of the input, which suffices
because every step strictly shortens the input. -/
def findallAux : Nat → List Char → List (String × String)
  | 0, _ => []
  | _ + 1, [] => []
  | fuel + 1, c :: rest =>
    if nameChar c then
      let nm := c :: rest.takeWhile nameChar
      let after := rest.drop (nm.length - 1)
      match after with
      | '[' :: tl =>
        match findBracket tl with
        | some (grp, rem) => (⟨nm⟩, ⟨grp⟩) :: findallAux fuel rem
        | none => (⟨nm⟩, "") :: findallAux fuel after
      | _ => (⟨nm⟩, "") :: findallAux fuel after
    else findallAux fuel rest

/-- `nodequery.findall(s)`: all (node, range-group) pairs of `s`. -/
def findallNodes (s : String) : List (String × String) :=
  findallAux s.toList.length s.toList

/-- `nodequery.search(s)` succeeds iff some character can start group 1. -/
def nodeSearch (s : String) : Bool :=
  s.toList.any nameChar

/-- Python `range(a, b)` as a list (empty when `b ≤ a`). -/
def intRange (a b : Int) : List Int :=
  (List.range (b - a).toNat).map (fun i : Nat => a + (i : Int))

/-- The comprehension `[int(i) for i in reg.split('-')]`: all pieces are
`int()`-converted before unpacking, and any failure raises `ValueError`. -/
def pyIntList : List String → Option (List Int)
  | [] => some []
  | s :: rest =>
    match pyInt? s with
    | none => none
    | some n => (pyIntList rest).map (fun l => n :: l)

/-- Expansion of one comma-piece `reg` of a bracket group (slurm.py lines
354-365): a piece containing `-` is split into two `int()`-parsed bounds
and expanded over `range(start, end)` — the upper bound is exclusive —
while any other piece is appended verbatim after the node prefix. -/
def expandReg (node : String) (reg : String) : Except PyErr (List String) :=
  if pyContains reg '-' then
    match pyIntList (pySplit reg '-') with
    | none => .error (.valueError "invalid literal for int with base 10")
    | some ints =>
      match ints with
      | [a, b] => .ok ((intRange a b).map (fun i => node ++ toString i))
      | _ => .error (.valueError "values to unpack")
  else .ok [node ++ reg]

/-- Expansion of the pieces of one bracket group, left to right. -/
def expandRegs (node : String) : List String → Except PyErr (List String)
  | [] => .ok []
  | reg :: rest =>
    match expandReg node reg with
    | .error e => .error e
    | .ok e =>
      match expandRegs node rest with
      | .error er => .error er
      | .ok es => .ok (e ++ es)

/-- Expansion of one `(node, rge)` pair of `findall` output: an absent
group 2 yields the bare node name, otherwise the group is stripped of its
brackets, split on commas and each piece expanded. -/
def expandGroup (node : String) (rge : String) : Except PyErr (List String) :=
  if rge = "" then .ok [node]
  else expandRegs node (pySplit (pyStripSet rge ['[', ']']) ',')

/-- Expansion of all `(node, rge)` pairs in scan order. -/
def expandPairs : List (String × String) → Except PyErr (List String)
  | [] => .ok []
  | (node, rge) :: rest =>
    match expandGroup node rge with
    | .error e => .error e
    | .ok first =>
      match expandPairs rest with
      | .error e => .error e
      | .ok others => .ok (first ++ others)

/-- Embedding of the node-list branch of `queue_parser` (slurm.py lines
346-367) for a truthy `sndlst` string: if `nodequery.search` succeeds the
`findall` pairs are expanded, otherwise the raw string is split on commas. -/
def expandNodelist (s : String) : Except PyErr (List String) :=
  if nodeSearch s then expandPairs (findallNodes s)
  else .ok (pySplit s ',')

/-! ## Queue parsing: squeue rows (slurm.py lines 241-256)

`squeue` is asked for ten fields, each padded to `fwdth = 400` characters,
and every output line is cut into the ten 400-character slices
`k[i:i+400].rstrip()` for `i in range(0, 400*10, 400)`.  The ten slices are
written out explicitly below; note that a line therefore always parses to
exactly ten fields, whatever its content. -/

/-- Slice number `j` of an squeue line: `k[400*j : 400*(j+1)].rstrip()`. -/
def squeueField (k : String) (j : Nat) : PyObj :=
  .pstr (pyRstrip (pySlice k (400 * j) (400 * (j + 1))))

/-- Fixed-width parse of one squeue output line into its ten fields
(jobid, arraytaskid, name, userid, partition, state, nodelist, numnodes,
numcpus, exit_code). -/
def parseSqueueLine (k : String) : List PyObj :=
  [squeueField k 0, squeueField k 1, squeueField k 2, squeueField k 3,
   squeueField k 4, squeueField k 5, squeueField k 6, squeueField k 7,
   squeueField k 8, squeueField k 9]

/-! ## Queue parsing: sacct rows and the merge (slurm.py lines 259-312)

Each sacct stdout line becomes `line.strip(' |').split('|')`, and the
header row is dropped (`sacct = sacct[1:]`).  If any rows remain, the first
must have nine columns, the ids already present in squeue are collected,
and each sacct row is either skipped (job step, or id already live) or
appended after the squeue rows. -/

/-- Parse of the raw sacct stdout into rows (slurm.py lines 263-265). -/
def parseSacctOut (out : String) : List (List String) :=
  ((pySplit out '\n').map (fun i => pySplit (pyStripSet i [' ', '|']) '|')).drop 1

/-- Processing of one sacct row against the live squeue ids (slurm.py lines
281-310).  `.ok none` means the row is skipped (a job step, or an id that
squeue already reported); `.ok (some row)` is the ten-field row to append;
errors model the `ValueError`s of the unpacking, of `normalize_job_id` and
of the exit-code `int()` conversion.  Rows in this pipeline are never
empty, so `headI` faithfully stands for Python `sinfo[0]`. -/
def sacctRowToAppend (jobids : List PyObj) (sinfo : List String) :
    Except PyErr (Option (List PyObj)) :=
  if pyContains sinfo.headI '.' then .ok none
  else
    match sinfo with
    | [sid0, sname, suser, spartition, sstate, snodelist, snodes, scpus, scode0] =>
      match normalize_job_id sid0 with
      | .error e => .error e
      | .ok (sid, sarr) =>
        if PyObj.pstr sid ∈ jobids then .ok none
        else
          match pyInt? (pyLast (pySplit scode0 ':')) with
          | some c =>
            .ok (some [PyObj.pstr sid, optObj sarr, PyObj.pstr sname,
              PyObj.pstr suser, PyObj.pstr spartition, PyObj.pstr sstate,
              PyObj.pstr snodelist, PyObj.pstr snodes, PyObj.pstr scpus,
              PyObj.pint c])
          | none => .error (.valueError "invalid literal for int with base 10")
    | _ => .error (.valueError "not enough values to unpack")

/-- The rows appended from sacct, in order (the loop of slurm.py lines
281-310). -/
def appendSacct (jobids : List PyObj) : List (List String) →
    Except PyErr (List (List PyObj))
  | [] => .ok []
  | sinfo :: rest =>
    match sacctRowToAppend jobids sinfo with
    | .error e => .error e
    | .ok o =>
      match appendSacct jobids rest with
      | .error e => .error e
      | .ok rs =>
        .ok (match o with
             | some row => row :: rs
             | none => rs)

/-- Merge of the squeue rows with the sacct rows (slurm.py lines 274-312):
with no sacct rows the squeue list is returned as is; otherwise the first
sacct row must have nine columns, and the surviving sacct rows are appended
after all squeue rows. -/
def mergeSacct (squeue : List (List PyObj)) (sacct : List (List String)) :
    Except PyErr (List (List PyObj)) :=
  match sacct with
  | [] => .ok squeue
  | first :: _ =>
    if first.length ≠ 9 then
      .error (.valueError "sacct output does not have 9 columns")
    else
      match appendSacct (squeue.map List.headI) sacct with
      | .error e => .error e
      | .ok app => .ok (squeue ++ app)

/-! ## Queue parsing: row sanitization (slurm.py lines 314-370) -/

/-- One job record as yielded by `queue_parser` (field names follow the
docstring of slurm.py lines 222-233). -/
structure JobRecord where
  job_id : PyObj
  array_id : PyObj
  name : PyObj
  userid : String
  partition : PyObj
  state : String
  nodelist : List String
  numnodes : Option Int
  cntpernode : Option Int
  exit_code : Option Int
  deriving DecidableEq, Repr

/-- The numeric coercion pattern `x = int(x) if x else None` applied to a
field that may already be an int (slurm.py lines 330-335). -/
def pyCoerceInt : PyObj → Except PyErr (Option Int)
  | .pint n => .ok (some n)
  | .pnone => .ok none
  | .pstr s =>
    if s ≠ "" then
      match pyInt? s with
      | some n => .ok (some n)
      | none => .error (.valueError "invalid literal for int with base 10")
    else .ok none

/-- Python `x.lower()`: an `AttributeError` unless `x` is a string. -/
def pyLowerObj : PyObj → Except PyErr String
  | .pstr s => .ok (pyLower s)
  | _ => .error .attributeError

/-- Access to a string method on a row field: an `AttributeError` unless
the field is a string. -/
def pyAsStr : PyObj → Except PyErr String
  | .pstr s => .ok s
  | _ => .error .attributeError

/-- The numeric-user resolution `pwd.getpwuid(int(suser)).pw_name`
(slurm.py lines 338-339); `pwdb` is the system user database, passed in as
a map from uid to user name, and a missing uid models the `KeyError` from
`getpwuid`. -/
def resolveUid (pwdb : Int → Option String) (u : String) : Except PyErr String :=
  match pyInt? u with
  | some n =>
    match pwdb n with
    | some nm => .ok nm
    | none => .error .keyError
  | none => .error (.valueError "invalid literal for int with base 10")

/-- Sanitization and filtering of one merged row (the body of the loop at
slurm.py lines 315-370).  `.ok none` models `continue` (a filtered-out
row); `.ok (some rec)` is the yielded record. -/
def sanitizeRow (user partition jobId : Option String)
    (pwdb : Int → Option String) (sinfo : List PyObj) :
    Except PyErr (Option JobRecord) :=
  match sinfo with
  | [sid0, sarr0, sname, suser0, spartition, sstate0, sndlst, snodes0, scpus0, scode0] =>
    if pyTruthyOpt partition ∧ spartition ≠ .pstr (partition.getD "") then .ok none
    else
      -- lines 326-329: a string id forces the array id to None; a non-string
      -- id is stringified when truthy
      let sidArr : PyObj × PyObj :=
        match sid0 with
        | .pstr _ => (sid0, .pnone)
        | .pint n => (if n ≠ 0 then .pstr (toString n) else .pnone, sarr0)
        | .pnone => (.pnone, sarr0)
      match pyCoerceInt snodes0 with
      | .error e => .error e
      | .ok numnodes =>
      match pyCoerceInt scpus0 with
      | .error e => .error e
      | .ok cpus =>
      match pyCoerceInt scode0 with
      | .error e => .error e
      | .ok ecode =>
      match pyLowerObj sstate0 with
      | .error e => .error e
      | .ok state =>
      match pyAsStr suser0 with
      | .error e => .error e
      | .ok u0 =>
      match (if pyIsDigit u0 then resolveUid pwdb u0 else .ok u0) with
      | .error e => .error e
      | .ok userid =>
        if pyTruthyOpt user ∧ userid ≠ user.getD "" then .ok none
        else if pyTruthyOpt jobId ∧ PyObj.pstr (jobId.getD "") ≠ sidArr.1 then .ok none
        else
          match (if sndlst.truthy then
                   match sndlst with
                   | .pstr s => expandNodelist s
                   | _ => .error (.typeError "expected string or bytes-like object")
                 else .ok []) with
          | .error e => .error e
          | .ok nl =>
            .ok (some ⟨sidArr.1, sidArr.2, sname, userid, spartition, state,
                       nl, numnodes, cpus, ecode⟩)
  | _ =>
    .error (.clusterError
      "Queue parsing error, expected 10 items in output of squeue and sacct")

/-- Sanitization of all merged rows in order, collecting the yielded
records (the generator is consumed eagerly). -/
def sanitizeRows (user partition jobId : Option String)
    (pwdb : Int → Option String) : List (List PyObj) →
    Except PyErr (List JobRecord)
  | [] => .ok []
  | r :: rest =>
    match sanitizeRow user partition jobId pwdb r with
    | .error e => .error e
    | .ok o =>
      match sanitizeRows user partition jobId pwdb rest with
      | .error e => .error e
      | .ok os =>
        .ok (match o with
             | some rec => rec :: os
             | none => os)

/-- The job-id argument validation of slurm.py lines 235-239: a truthy
`job_id` that `int()` cannot parse is replaced by `None`. -/
def validateJobId (jobId0 : Option String) : Option String :=
  match jobId0 with
  | some j => if j ≠ "" ∧ (pyInt? j).isNone then none else some j
  | none => none

/-- Embedding of `SlurmServer.queue_parser` (slurm.py lines 203-370).
External command output is passed in: `squeueStdout` is the stdout of the
squeue call; `sacctRes` is `some stdout` for a successful sacct call and
`none` when the sacct command raised, in which case the failure is
re-raised if the logging level `minLevel` is `debug` and otherwise the
historical feed is treated as empty (lines 262-272). -/
def queueParser (user partition jobId0 : Option String) (squeueStdout : String)
    (sacctRes : Option String) (minLevel : String)
    (pwdb : Int → Option String) : Except PyErr (List JobRecord) :=
  match (match sacctRes with
         | some out => Except.ok (parseSacctOut out)
         | none =>
           if minLevel = "debug" then Except.error PyErr.cmdFailure
           else Except.ok []) with
  | .error e => .error e
  | .ok sacct =>
    match mergeSacct ((pySplit squeueStdout '\n').map parseSqueueLine) sacct with
    | .error e => .error e
    | .ok merged => sanitizeRows user partition (validateJobId jobId0) pwdb merged

/-! ## Helper lemmas about the queue pipeline -/

/-- A row whose first entry is a string (every row this pipeline builds). -/
def HeadStr (r : List PyObj) : Prop :=
  ∃ s rest, r = PyObj.pstr s :: rest

/-! ## Job submission (slurm.py lines 142-179)

`submit` builds the sbatch argument list (with an `afterok` dependency
directive when dependencies are given) and runs it through
`_run.cmd(args, tries=5)`.  The `run` module is not part of this repository
snapshot, so the retry helper is modelled from the spec. -/

/-- Result of one external command attempt: exit code, stdout, stderr. -/
structure CmdResult where
  code : Int
  stdout : String
  stderr : String
  deriving DecidableEq, Repr

/-- The sbatch argument list of `SlurmServer.submit` (slurm.py lines
160-165): a truthy dependency list adds a `--dependency=afterok:` directive
(ids joined with colons) before the script name. -/
def submitArgs (script_file_name : String) (dependencies : Option (List String)) :
    List String :=
  match dependencies with
  | some deps =>
    if deps ≠ [] then
      ["sbatch", "--dependency=afterok:" ++ String.intercalate ":" deps,
       script_file_name]
    else ["sbatch", script_file_name]
  | none => ["sbatch", script_file_name]

/-- Modelled from the spec: `_run.cmd(args, tries=5)` lives in the `run`
module, which is not under this repository snapshot.  Per the spec the
command is attempted up to a fixed retry budget of 5 attempts, returning as
soon as an attempt exits 0, and otherwise returning the last (5th)
attempt's captured result.  `env i` is the outcome of attempt `i`. -/
def cmdTries5 (env : Nat → CmdResult) : CmdResult :=
  if (env 0).code = 0 then env 0
  else if (env 1).code = 0 then env 1
  else if (env 2).code = 0 then env 2
  else if (env 3).code = 0 then env 3
  else env 4

/-- The structured result dictionary of `SlurmServer.submit`: either
`{error: False, result: job_id}` or `{error: True, stdout, stderr}`. -/
inductive SubmitResult where
  | ok (result : String)
  | err (stdout stderr : String)
  deriving DecidableEq, Repr

/-- Embedding of `SlurmServer.submit` (slurm.py lines 142-179): on exit
code 0 the last whitespace token of stdout goes through
`normalize_job_id` and only the base job id is returned; on nonzero exit
the raw stdout/stderr are returned in an error dictionary — the
`CalledProcessError` re-raise is commented out in the source because Pyro4
cannot serialize it. -/
def submitResult (r : CmdResult) : Except PyErr SubmitResult :=
  if r.code = 0 then
    match normalize_job_id (pyLast (pySplit r.stdout ' ')) with
    | .error e => .error e
    | .ok (job_id, _) => .ok (.ok job_id)
  else .ok (.err r.stdout r.stderr)

def submit (script_file_name : String) (dependencies : Option (List String))
    (env : List String → Nat → CmdResult) : Except PyErr SubmitResult :=
  submitResult (cmdTries5 (env (submitArgs script_file_name dependencies)))

/-! ## Registry and instance cache (batch_systems/__init__.py)

`get_batch_system` keeps one client per `(locality, qtype)` in the
`_client_batches` tables.  The cache is modelled as a function from the
`remote` flag and the qtype to an optional client; `released` collects the
ids of clients whose `release()` has been called, and `next` numbers newly
constructed clients.  External collaborators are parameters: `detected`
stands for `get_cluster_environment()` and `serverQtype` for the qtype a
remote generic client reports (`none` when it cannot connect). -/

/-- The `DEFINED_SYSTEMS` set (batch_systems/__init__.py line 27). -/
def DEFINED_SYSTEMS : List String :=
  ["torque", "slurm", "lsf", "local", "auto"]

/-- The `_default_batches` table (lines 42-45): `some true` for a backend
with real client/server classes, `some false` for the
`'local': [None, None]` entry, `none` for a missing key. -/
def defaultBatches : String → Option Bool
  | "slurm" => some true
  | "torque" => some true
  | "lsf" => some true
  | "local" => some false
  | _ => none

/-- One batch-system client instance. -/
structure Client where
  cid : Nat
  qtype : String
  remote : Bool
  uri : Option String
  deriving DecidableEq, Repr

/-- The registry state: the `_client_batches` cache (indexed by the remote
flag and the qtype), the ids of released clients, and the next fresh id. -/
structure RegState where
  cache : Bool → String → Option Client
  released : List Nat
  next : Nat

/-- Construction of a new client for `qtype` and storage in the cache
(lines 90-98): for `'local'` the constructor slot holds `None` and calling
it raises `TypeError`; a qtype missing from `_default_batches` raises
`KeyError`; local-mode construction does not pass the URI. -/
def createBatch (qtype : String) (remote : Bool) (uri : Option String)
    (st : RegState) : Except PyErr Client × RegState :=
  match defaultBatches qtype with
  | none => (.error .keyError, st)
  | some false => (.error (.typeError "NoneType object is not callable"), st)
  | some true =>
    (.ok ⟨st.next, qtype, remote, if remote then uri else none⟩,
     { cache := fun b q =>
         if b = remote ∧ q = qtype then
           some ⟨st.next, qtype, remote, if remote then uri else none⟩
         else st.cache b q,
       released := st.released,
       next := st.next + 1 })

/-- Case analysis on the cached entry for lines 84-89: a cached client is
returned when no truthy URI was requested or the requested URI matches;
otherwise the stale client is released and a new one is created and
cached. -/
def cacheHit (cached : Option Client) (qtype : String) (remote : Bool)
    (uri : Option String) (st : RegState) : Except PyErr Client × RegState :=
  match cached with
  | some c =>
    if pyTruthyOpt uri = false ∨ uri = c.uri then (.ok c, st)
    else createBatch qtype remote uri { st with released := c.cid :: st.released }
  | none => createBatch qtype remote uri st

/-- The cache lookup of lines 84-98. -/
def lookupOrCreate (qtype : String) (remote : Bool) (uri : Option String)
    (st : RegState) : Except PyErr Client × RegState :=
  cacheHit (st.cache remote qtype) qtype remote uri st

/-- The fallback `qtype = qtype if qtype else get_cluster_environment()`
of line 53 (`detected` stands for the detection result). -/
def resolveQtype (qtype0 : Option String) (detected : String) : String :=
  match qtype0 with
  | some q => if q ≠ "" then q else detected
  | none => detected

/-- Embedding of `get_batch_system` (batch_systems/__init__.py lines
51-98).  A falsy `qtype0` falls back to the detected environment; unknown
qtypes raise `ClusterError`; `auto` needs a remote truthy URI and asks a
throwaway generic client (numbered and released here) for the server
qtype. -/
def getBatchSystem (qtype0 : Option String) (remote : Bool) (uri : Option String)
    (detected : String) (serverQtype : Option String) (st : RegState) :
    Except PyErr Client × RegState :=
  if resolveQtype qtype0 detected ∉ DEFINED_SYSTEMS then
    (.error (.clusterError "qtype value is not recognized"), st)
  else if resolveQtype qtype0 detected = "auto" then
    if remote ∧ pyTruthyOpt uri = true then
      match serverQtype with
      | none =>
        (.error (.batchSystemError "BatchSystemClient not connected"),
         { st with next := st.next + 1 })
      | some q =>
        lookupOrCreate q remote uri
          { st with released := st.next :: st.released, next := st.next + 1 }
    else
      (.error (.valueError
        "to automatically get queue type there must be a remote server and URI"), st)
  else lookupOrCreate (resolveQtype qtype0 detected) remote uri st

/-! ## Auto-detection (batch_systems/__init__.py lines 119-175)

`get_cluster_environment` consults the cached global `MODE` (`mode0`), the
config file (`conf`, `none` for an unset option) and the executable path
probe `which`. -/

/-- The configuration values `get_cluster_environment` reads. -/
structure QueueConf where
  queue_type : Option String
  sbatch : Option String
  qsub : Option String
  bsub : Option String

/-- Python `x if x else default` for an optional configured tool path
(lines 153-155). -/
def pyGetD (o : Option String) (d : String) : String :=
  match o with
  | some s => if s ≠ "" then s else d
  | none => d

/-- The hardcoded queue lookups of lines 148-163. -/
def detectProbe (conf : QueueConf) (which : String → Bool) : String :=
  if which (pyGetD conf.sbatch "sbatch") then "slurm"
  else if which (pyGetD conf.qsub "qsub") then "torque"
  else if which (pyGetD conf.bsub "bsub") then "lsf"
  else "local"

/-- The recomputation part of `get_cluster_environment` (lines 141-165):
an unknown configured queue type is reset to `auto` with a warning; `auto`
probes for the sbatch, qsub and bsub tools in that order and falls back to
`local`; any other configured value is taken as is. -/
def detectCompute (conf : QueueConf) (which : String → Bool) : String :=
  if (conf.queue_type.getD "auto") ∉ DEFINED_SYSTEMS then
    detectProbe conf which
  else if conf.queue_type.getD "auto" = "auto" then
    detectProbe conf which
  else conf.queue_type.getD "auto"

/-- Embedding of `get_cluster_environment` (lines 119-175): a cached valid
`MODE` is returned unless `overwrite` is set, and otherwise the mode is
recomputed from configuration and tool probing. -/
def get_cluster_environment (overwrite : Bool) (mode0 : Option String)
    (conf : QueueConf) (which : String → Bool) : String :=
  match mode0 with
  | some m =>
    if overwrite = false ∧ m ≠ "" ∧ m ∈ DEFINED_SYSTEMS then m
    else detectCompute conf which
  | none => detectCompute conf which

example : normalize_job_id "123_4" = .ok ("123", some "4") := rfl
example : normalize_job_id "123" = .ok ("123", none) := rfl
example : normalize_job_id "_4" = .ok ("", some "4") := rfl
example : normalize_job_id "1_2_3" = .error (.valueError "too many values to unpack") := rfl
example : pyInt? " 12 " = some 12 := by decide
example : pyInt? "1_0" = some 10 := by decide
example : pyInt? "_1" = none := by decide
example : pyInt? "-5" = some (-5) := by decide
example : pySplit "a,,b" ',' = ["a", "", "b"] := by decide
example : pySplit "" '\n' = [""] := by decide

example : findallNodes "nodeA[0-3,7]" = [("nodeA", "[0-3,7]")] := by decide
example : findallNodes "node1,node2" = [("node1", ""), ("node2", "")] := by decide
example : expandNodelist "nodeA[0-3,7]" = .ok ["nodeA0", "nodeA1", "nodeA2", "nodeA7"] := rfl
example : expandNodelist "n1,n2" = .ok ["n1", "n2"] := rfl

theorem parseSqueueLine_headStr (k : String) : HeadStr (parseSqueueLine k) :=
  ⟨_, _, rfl⟩

theorem parseSqueueLine_length (k : String) : (parseSqueueLine k).length = 10 :=
  rfl

theorem sacctRowToAppend_ok_some (jobids : List PyObj) (sinfo : List String)
    (row : List PyObj) (h : sacctRowToAppend jobids sinfo = .ok (some row)) :
    ∃ s rest, row = PyObj.pstr s :: rest ∧ PyObj.pstr s ∉ jobids := by
  unfold sacctRowToAppend at h
  split at h
  · exact absurd h (by simp)
  · split at h
    · split at h
      · exact absurd h (by simp)
      · split at h
        · exact absurd h (by simp)
        · split at h
          · simp only [Except.ok.injEq, Option.some.injEq] at h
            subst h
            exact ⟨_, _, rfl, by assumption⟩
          · exact absurd h (by simp)
    · exact absurd h (by simp)

theorem appendSacct_mem (jobids : List PyObj) (rows : List (List String))
    (app : List (List PyObj)) (h : appendSacct jobids rows = .ok app) :
    ∀ r ∈ app, List.headI r ∉ jobids ∧ HeadStr r := by
  induction rows generalizing app with
  | nil =>
    simp only [appendSacct] at h
    cases h
    simp
  | cons sinfo rest ih =>
    simp only [appendSacct] at h
    cases hrow : sacctRowToAppend jobids sinfo with
    | error e => rw [hrow] at h; exact absurd h (by simp)
    | ok o =>
      rw [hrow] at h
      cases hrest : appendSacct jobids rest with
      | error e => rw [hrest] at h; exact absurd h (by simp)
      | ok rs =>
        rw [hrest] at h
        cases o with
        | none =>
          cases h
          exact ih rs hrest
        | some row =>
          cases h
          intro r hr
          rcases List.mem_cons.mp hr with hr | hr
          · subst hr
            obtain ⟨s, tl, hrow', hnot⟩ :=
              sacctRowToAppend_ok_some jobids sinfo r hrow
            subst hrow'
            exact ⟨hnot, ⟨s, tl, rfl⟩⟩
          · exact ih rs hrest r hr

theorem mergeSacct_ok (squeue : List (List PyObj)) (sacct : List (List String))
    (merged : List (List PyObj)) (h : mergeSacct squeue sacct = .ok merged) :
    ∃ app, merged = squeue ++ app ∧
      ∀ r ∈ app, List.headI r ∉ squeue.map List.headI ∧ HeadStr r := by
  unfold mergeSacct at h
  split at h
  · cases h
    exact ⟨[], by simp, by simp⟩
  · split at h
    · exact absurd h (by simp)
    · split at h
      · exact absurd h (by simp)
      · rename_i first rest hlen app happ
        cases h
        exact ⟨app, rfl, appendSacct_mem _ _ _ happ⟩

theorem sacctRowToAppend_badLen (jobids : List PyObj) (sinfo : List String)
    (hdot : pyContains sinfo.headI '.' = false) (hlen : sinfo.length ≠ 9) :
    ∃ e, sacctRowToAppend jobids sinfo = .error e := by
  unfold sacctRowToAppend
  rw [hdot]
  simp only [Bool.false_eq_true, if_false]
  split
  · exact absurd rfl hlen
  · exact ⟨_, rfl⟩

theorem appendSacct_badRow (jobids : List PyObj) (rows : List (List String))
    (row : List String) (hmem : row ∈ rows)
    (hdot : pyContains row.headI '.' = false) (hlen : row.length ≠ 9) :
    ∃ e, appendSacct jobids rows = .error e := by
  induction rows with
  | nil => cases hmem
  | cons sinfo rest ih =>
    rcases List.mem_cons.mp hmem with hmem' | hmem'
    · subst hmem'
      obtain ⟨e, he⟩ := sacctRowToAppend_badLen jobids row hdot hlen
      exact ⟨e, by simp only [appendSacct]; rw [he]⟩
    · cases hrow : sacctRowToAppend jobids sinfo with
      | error e => exact ⟨e, by simp only [appendSacct]; rw [hrow]⟩
      | ok o =>
        obtain ⟨e, he⟩ := ih hmem'
        exact ⟨e, by simp only [appendSacct]; rw [hrow, he]⟩

theorem sanitizeRow_badLen (user partition jobId : Option String)
    (pwdb : Int → Option String) (sinfo : List PyObj)
    (hlen : sinfo.length ≠ 10) :
    sanitizeRow user partition jobId pwdb sinfo =
      .error (.clusterError
        "Queue parsing error, expected 10 items in output of squeue and sacct") := by
  unfold sanitizeRow
  split
  · exact absurd rfl hlen
  · rfl

theorem sanitizeRows_badRow (user partition jobId : Option String)
    (pwdb : Int → Option String) (rows : List (List PyObj))
    (row : List PyObj) (hmem : row ∈ rows) (hlen : row.length ≠ 10) :
    ∃ e, sanitizeRows user partition jobId pwdb rows = .error e := by
  induction rows with
  | nil => cases hmem
  | cons r rest ih =>
    rcases List.mem_cons.mp hmem with hmem' | hmem'
    · subst hmem'
      exact ⟨_, by
        simp only [sanitizeRows]
        rw [sanitizeRow_badLen user partition jobId pwdb row hlen]⟩
    · cases hr : sanitizeRow user partition jobId pwdb r with
      | error e => exact ⟨e, by simp only [sanitizeRows]; rw [hr]⟩
      | ok o =>
        obtain ⟨e, he⟩ := ih hmem'
        exact ⟨e, by simp only [sanitizeRows]; rw [hr, he]⟩

theorem sanitizeRow_arrayId (user partition jobId : Option String)
    (pwdb : Int → Option String) (sinfo : List PyObj) (rec : JobRecord)
    (hhead : HeadStr sinfo)
    (h : sanitizeRow user partition jobId pwdb sinfo = .ok (some rec)) :
    rec.array_id = .pnone := by
  obtain ⟨s, rest, hs⟩ := hhead
  subst hs
  rcases rest with - | ⟨x1, - | ⟨x2, - | ⟨x3, - | ⟨x4, - | ⟨x5, - | ⟨x6,
    - | ⟨x7, - | ⟨x8, - | ⟨x9, - | ⟨x10, tail⟩⟩⟩⟩⟩⟩⟩⟩⟩⟩ <;>
    simp only [sanitizeRow] at h <;>
    repeat' split at h
  all_goals try (cases h; rfl)
  all_goals simp_all

theorem sanitizeRows_arrayId (user partition jobId : Option String)
    (pwdb : Int → Option String) (rows : List (List PyObj))
    (recs : List JobRecord) (hrows : ∀ r ∈ rows, HeadStr r)
    (h : sanitizeRows user partition jobId pwdb rows = .ok recs) :
    ∀ rec ∈ recs, rec.array_id = .pnone := by
  induction rows generalizing recs with
  | nil =>
    simp only [sanitizeRows] at h
    cases h
    simp
  | cons r rest ih =>
    simp only [sanitizeRows] at h
    cases hr : sanitizeRow user partition jobId pwdb r with
    | error e => rw [hr] at h; exact absurd h (by simp)
    | ok o =>
      rw [hr] at h
      cases hrest : sanitizeRows user partition jobId pwdb rest with
      | error e => rw [hrest] at h; exact absurd h (by simp)
      | ok os =>
        rw [hrest] at h
        have htail := ih os (fun x hx => hrows x (List.mem_cons_of_mem r hx)) hrest
        cases o with
        | none =>
          cases h
          exact htail
        | some rec0 =>
          cases h
          intro rec hrec
          rcases List.mem_cons.mp hrec with hrec | hrec
          · subst hrec
            exact sanitizeRow_arrayId user partition jobId pwdb r rec
              (hrows r (List.mem_cons_self r rest)) hr
          · exact htail rec hrec

/-! ## Claim theorems for the queue pipeline -/

/-- C4: node-list expansion maps `"nodeA[0-3,7]"` to
`["nodeA0","nodeA1","nodeA2","nodeA7"]`, and in general a numeric range
`a-b` inside a bracket group expands over `range(a, b)`, i.e. to
`a, a+1, ..., b-1`, exclusive of the upper bound `b`. -/
theorem c4_nodelist_expansion :
    expandNodelist "nodeA[0-3,7]" = .ok ["nodeA0", "nodeA1", "nodeA2", "nodeA7"] ∧
    (∀ (node reg s1 s2 : String) (a b : Int),
      pyContains reg '-' = true → pySplit reg '-' = [s1, s2] →
      pyInt? s1 = some a → pyInt? s2 = some b →
      expandReg node reg = .ok ((intRange a b).map (fun i => node ++ toString i))) ∧
    (∀ (a b i : Int), i ∈ intRange a b ↔ a ≤ i ∧ i < b) := by
  refine ⟨rfl, ?_, ?_⟩
  · intro node reg s1 s2 a b hc hsplit h1 h2
    have hm : pyIntList (pySplit reg '-') = some [a, b] := by
      rw [hsplit]
      simp [pyIntList, h1, h2]
    unfold expandReg
    rw [hm]
    simp [hc]
  · intro a b i
    simp only [intRange, List.mem_map, List.mem_range]
    constructor
    · rintro ⟨k, hk, rfl⟩
      rw [Int.lt_toNat] at hk
      omega
    · rintro ⟨h1, h2⟩
      refine ⟨(i - a).toNat, ?_, ?_⟩
      · rw [Int.lt_toNat, Int.toNat_of_nonneg (by omega)]
        omega
      · rw [Int.toNat_of_nonneg (by omega)]
        omega

/-- Witness for C4: the general range statement applied to the concrete
range piece `"0-3"`. -/
theorem c4_witness :
    expandReg "n" "0-3" = .ok ((intRange 0 3).map (fun i => "n" ++ toString i)) :=
  c4_nodelist_expansion.2.1 "n" "0-3" "0" "3" 0 3 rfl rfl rfl rfl

/-- Counterexample for C5: the raw id `"_4"` contains the separator yet its
first returned component is empty (not "two non-empty components"), and the
raw id `"1_2_3"` contains the separator yet `normalize_job_id` raises a
`ValueError` from the two-way unpacking instead of returning components. -/
theorem c5_counterexample :
    normalize_job_id "_4" = .ok ("", some "4") ∧
    normalize_job_id "1_2_3" = .error (.valueError "too many values to unpack") ∧
    pyContains "_4" '_' = true ∧ pyContains "1_2_3" '_' = true :=
  ⟨rfl, rfl, rfl, rfl⟩

/-- C5 (amended): for a raw id splitting into exactly two pieces at `'_'`,
`normalize_job_id` returns those two pieces whitespace-trimmed (each may be
empty if its side is blank); without a separator the id is returned
unchanged with the array component absent; with more than one separator the
unpacking raises `ValueError`. -/
theorem c5_normalize_amended (s a b : String) :
    (pyContains s '_' = true → pySplit s '_' = [a, b] →
      normalize_job_id s = .ok (pyStrip a, some (pyStrip b))) ∧
    (pyContains s '_' = false → normalize_job_id s = .ok (s, none)) ∧
    (pyContains s '_' = true → (pySplit s '_').length ≠ 2 →
      normalize_job_id s = .error (.valueError "too many values to unpack")) := by
  refine ⟨?_, ?_, ?_⟩
  · intro hc hsplit
    unfold normalize_job_id
    rw [hsplit]
    simp [hc]
  · intro hc
    unfold normalize_job_id
    simp [hc]
  · intro hc hlen
    unfold normalize_job_id
    simp only [hc, if_true]
    split
    · rename_i heq
      rw [heq] at hlen
      exact absurd rfl hlen
    · rfl

/-- Witness for C5 (amended): a single-separator id with blanks is split
and trimmed. -/
theorem c5_witness :
    normalize_job_id " 12 _ 3 " = .ok ("12", some "3") :=
  (c5_normalize_amended " 12 _ 3 " " 12 " " 3 ").1 rfl rfl

/-- C1: in one merge of live (squeue) rows with accounting (sacct) rows,
every appended accounting row's id is absent from the live ids (an
accounting row whose base id is already live is dropped), the appended rows
come after all live rows, and for any id present among the live ids the
merged rows with that id are exactly the live rows with that id — so a
unique live id stays unique, sourced from the live query. -/
theorem c1_merge_dedup (squeue : List (List PyObj)) (sacct : List (List String))
    (merged : List (List PyObj)) (h : mergeSacct squeue sacct = .ok merged) :
    (∃ app, merged = squeue ++ app ∧
      ∀ r ∈ app, List.headI r ∉ squeue.map List.headI) ∧
    (∀ X : String, PyObj.pstr X ∈ squeue.map List.headI →
      merged.filter (fun r => decide (List.headI r = PyObj.pstr X)) =
        squeue.filter (fun r => decide (List.headI r = PyObj.pstr X))) := by
  obtain ⟨app, hm, hprop⟩ := mergeSacct_ok squeue sacct merged h
  subst hm
  refine ⟨⟨app, rfl, fun r hr => (hprop r hr).1⟩, ?_⟩
  intro X hX
  rw [List.filter_append]
  have happ : app.filter (fun r => decide (List.headI r = PyObj.pstr X)) = [] := by
    rw [List.filter_eq_nil_iff]
    intro r hr
    simp only [decide_eq_true_eq]
    intro hEq
    exact (hprop r hr).1 (hEq ▸ hX)
  rw [happ, List.append_nil]

/-- Witness for C1: a live row with id `"100"` deduplicates the accounting
row with the same id, while id `"101"` is appended. -/
theorem c1_witness :
    ([parseSqueueLine "100"] ++
      [[PyObj.pstr "101", PyObj.pnone, PyObj.pstr "a", PyObj.pstr "b",
        PyObj.pstr "c", PyObj.pstr "d", PyObj.pstr "e", PyObj.pstr "2",
        PyObj.pstr "4", PyObj.pint 0]]).filter
      (fun r => decide (List.headI r = PyObj.pstr "100")) =
    [parseSqueueLine "100"].filter
      (fun r => decide (List.headI r = PyObj.pstr "100")) :=
  (c1_merge_dedup [parseSqueueLine "100"]
    (parseSacctOut "h\n100|a|b|c|d|e|2|4|0:0\n101|a|b|c|d|e|2|4|0:0")
    ([parseSqueueLine "100"] ++
      [[PyObj.pstr "101", PyObj.pnone, PyObj.pstr "a", PyObj.pstr "b",
        PyObj.pstr "c", PyObj.pstr "d", PyObj.pstr "e", PyObj.pstr "2",
        PyObj.pstr "4", PyObj.pint 0]]) rfl).2 "100" (by decide)

/-- Counterexample for C6: an accounting row with 2 fields (not the
expected count) whose id field contains a `.` is silently skipped — the
parse completes with a result instead of failing loudly. -/
theorem c6_counterexample :
    (parseSacctOut "h\nr1|a|b|c|d|e|2|4|0:0\n1.0|x").map List.length = [9, 2] ∧
    queueParser none none none "" (some "h\nr1|a|b|c|d|e|2|4|0:0\n1.0|x") "info"
      (fun _ => none) =
    .ok [⟨.pstr "", .pnone, .pstr "", "", .pstr "", "", [], none, none, none⟩,
         ⟨.pstr "r1", .pnone, .pstr "a", "b", .pstr "c", "d", ["e"],
          some 2, some 4, some 0⟩] :=
  ⟨by decide, rfl⟩

/-- C6 (amended): any accounting row that is not a job-step row (its id
field has no `.`) and has other than 9 fields makes the merge raise a hard
error, and any merged row with other than 10 fields makes sanitization
raise a hard `ClusterError`; job-step accounting rows are excluded before
field-count validation. -/
theorem c6_field_count_amended :
    (∀ (squeue : List (List PyObj)) (sacct : List (List String))
      (row : List String), row ∈ sacct →
      pyContains row.headI '.' = false → row.length ≠ 9 →
      ∃ e, mergeSacct squeue sacct = .error e) ∧
    (∀ (user partition jobId : Option String) (pwdb : Int → Option String)
      (rows : List (List PyObj)) (row : List PyObj), row ∈ rows →
      row.length ≠ 10 →
      ∃ e, sanitizeRows user partition jobId pwdb rows = .error e) := by
  constructor
  · intro squeue sacct row hmem hdot hlen
    cases sacct with
    | nil => cases hmem
    | cons first rest =>
      by_cases h9 : first.length = 9
      · obtain ⟨e, he⟩ :=
          appendSacct_badRow (squeue.map List.headI) (first :: rest) row hmem hdot hlen
        refine ⟨e, ?_⟩
        simp only [mergeSacct]
        rw [if_neg (not_not_intro h9), he]
      · exact ⟨_, by simp only [mergeSacct]; rw [if_pos h9]⟩
  · exact fun u p j db rows row hmem hlen =>
      sanitizeRows_badRow u p j db rows row hmem hlen

/-- Witness for C6 (amended): a two-field non-step accounting row makes the
merge fail. -/
theorem c6_witness :
    ∃ e, mergeSacct [] [["x", "y"]] = .error e :=
  c6_field_count_amended.1 [] [["x", "y"]] ["x", "y"] (by simp) (by decide)
    (by decide)

/-- Counterexample for C7: when the minimum logging level is `debug`, a
failed accounting query aborts the whole queue parse instead of degrading
to an empty historical feed. -/
theorem c7_counterexample :
    queueParser none none none "" none "debug" (fun _ => none) =
      .error .cmdFailure := rfl

/-- C7 (amended): when the accounting query fails and the minimum logging
level is not `debug`, the parse degrades to no historical rows and
completes from the live query alone. -/
theorem c7_sacct_failure_amended (user partition jobId : Option String)
    (squeueStdout minLevel : String) (pwdb : Int → Option String)
    (h : minLevel ≠ "debug") :
    queueParser user partition jobId squeueStdout none minLevel pwdb =
      sanitizeRows user partition (validateJobId jobId) pwdb
        ((pySplit squeueStdout '\n').map parseSqueueLine) := by
  unfold queueParser
  rw [if_neg h]
  rfl

/-- Witness for C7 (amended): at log level `info` the degraded parse equals
the live-only parse. -/
theorem c7_witness :
    queueParser none none none "" none "info" (fun _ => none) =
      sanitizeRows none none (validateJobId none) (fun _ => none)
        ((pySplit "" '\n').map parseSqueueLine) :=
  c7_sacct_failure_amended none none none "" "info" (fun _ => none) (by decide)

/-- C10: every record yielded by a successful queue parse has an absent
(None) array id — every merged row carries a string job id, so the
sanitization step always overwrites the array-id field with None. -/
theorem c10_array_id_none (user partition jobId : Option String)
    (squeueStdout : String) (sacctRes : Option String) (minLevel : String)
    (pwdb : Int → Option String) (recs : List JobRecord)
    (h : queueParser user partition jobId squeueStdout sacctRes minLevel pwdb =
      .ok recs) :
    ∀ rec ∈ recs, rec.array_id = .pnone := by
  unfold queueParser at h
  split at h
  · exact absurd h (by simp)
  · split at h
    · exact absurd h (by simp)
    · rename_i merged hmerge
      obtain ⟨app, hm, hprop⟩ := mergeSacct_ok _ _ _ hmerge
      subst hm
      refine sanitizeRows_arrayId _ _ _ _ _ _ ?_ h
      intro r hr
      rcases List.mem_append.mp hr with hr | hr
      · obtain ⟨k, -, hk⟩ := List.mem_map.mp hr
        exact hk ▸ parseSqueueLine_headStr k
      · exact (hprop r hr).2

/-- Witness for C10: the record yielded for an empty squeue snapshot has
array id None. -/
theorem c10_witness :
    (⟨PyObj.pstr "", PyObj.pnone, PyObj.pstr "", "", PyObj.pstr "", "", [],
      none, none, none⟩ : JobRecord).array_id = PyObj.pnone :=
  c10_array_id_none none none none "" (some "") "info" (fun _ => none)
    [⟨PyObj.pstr "", PyObj.pnone, PyObj.pstr "", "", PyObj.pstr "", "", [],
      none, none, none⟩] rfl _ (by simp)

theorem cmdTries5_allFail (env : Nat → CmdResult)
    (h : ∀ i, i < 5 → (env i).code ≠ 0) : cmdTries5 env = env 4 := by
  unfold cmdTries5
  rw [if_neg (h 0 (by omega)), if_neg (h 1 (by omega)),
      if_neg (h 2 (by omega)), if_neg (h 3 (by omega))]

theorem normalize_job_id_no_processError (s : String) :
    normalize_job_id s ≠ .error .calledProcessError := by
  unfold normalize_job_id
  split
  · split <;> simp
  · simp

/-- C2: the submit command runs with a 5-attempt budget; when all five
attempts exit nonzero the result is the structured error dictionary
carrying the final attempt's stdout and stderr; when an attempt exits 0 the
payload is only the base job id from `normalize_job_id` (the array
component is discarded); and no `CalledProcessError` ever crosses the RPC
boundary. -/
theorem c2_submit_protocol (script_file_name : String)
    (dependencies : Option (List String)) (env : List String → Nat → CmdResult)
    (jid : String) (arr : Option String) :
    ((∀ i, i < 5 → ((env (submitArgs script_file_name dependencies)) i).code ≠ 0) →
      submit script_file_name dependencies env =
        .ok (.err ((env (submitArgs script_file_name dependencies)) 4).stdout
                  ((env (submitArgs script_file_name dependencies)) 4).stderr)) ∧
    ((cmdTries5 (env (submitArgs script_file_name dependencies))).code = 0 →
      normalize_job_id (pyLast (pySplit
        (cmdTries5 (env (submitArgs script_file_name dependencies))).stdout ' ')) =
        .ok (jid, arr) →
      submit script_file_name dependencies env = .ok (.ok jid)) ∧
    submit script_file_name dependencies env ≠ .error .calledProcessError := by
  refine ⟨?_, ?_, ?_⟩
  · intro h
    have hr := cmdTries5_allFail _ h
    unfold submit submitResult
    rw [hr, if_neg (h 4 (by omega))]
  · intro hcode hnorm
    unfold submit submitResult
    rw [if_pos hcode, hnorm]
  · unfold submit
    generalize cmdTries5 (env (submitArgs script_file_name dependencies)) = r
    unfold submitResult
    split
    · cases hn : normalize_job_id (pyLast (pySplit r.stdout ' ')) with
      | error e =>
        intro hcontra
        simp only [Except.error.injEq] at hcontra
        subst hcontra
        exact absurd hn (normalize_job_id_no_processError _)
      | ok p =>
        obtain ⟨a, b⟩ := p
        simp
    · simp

/-- Witness for C2: an always-failing command yields the structured error
result with the captured output. -/
theorem c2_witness :
    submit "job.sbatch" none (fun _ _ => ⟨1, "out", "err"⟩) =
      .ok (.err "out" "err") :=
  (c2_submit_protocol "job.sbatch" none (fun _ _ => ⟨1, "out", "err"⟩)
    "x" none).1 (fun i _ => by decide)

/-- C3: a cached client for `(locality, qtype)` is returned unchanged when
no URI (or a matching URI) is requested; a truthy non-matching URI releases
the cached client and creates, caches and returns a fresh one; a cache miss
creates and caches a fresh client.  The cache holds at most one client per
`(locality, qtype)` key by construction. -/
theorem c3_registry_cache (st : RegState) (qtype : String) (remote : Bool)
    (uri : Option String) (detected : String) (sq : Option String) (c : Client)
    (hmem : qtype ∈ DEFINED_SYSTEMS) (hauto : qtype ≠ "auto") :
    (st.cache remote qtype = some c →
      getBatchSystem (some qtype) remote none detected sq st = (.ok c, st)) ∧
    (st.cache remote qtype = some c →
      getBatchSystem (some qtype) remote c.uri detected sq st = (.ok c, st)) ∧
    (st.cache remote qtype = some c → pyTruthyOpt uri = true → uri ≠ c.uri →
      defaultBatches qtype = some true →
      getBatchSystem (some qtype) remote uri detected sq st =
        (.ok ⟨st.next, qtype, remote, if remote then uri else none⟩,
         { cache := fun b q =>
             if b = remote ∧ q = qtype then
               some ⟨st.next, qtype, remote, if remote then uri else none⟩
             else st.cache b q,
           released := c.cid :: st.released,
           next := st.next + 1 })) ∧
    (st.cache remote qtype = none → defaultBatches qtype = some true →
      getBatchSystem (some qtype) remote uri detected sq st =
        (.ok ⟨st.next, qtype, remote, if remote then uri else none⟩,
         { cache := fun b q =>
             if b = remote ∧ q = qtype then
               some ⟨st.next, qtype, remote, if remote then uri else none⟩
             else st.cache b q,
           released := st.released,
           next := st.next + 1 })) := by
  have hne : qtype ≠ "" := by
    rintro rfl
    simp [DEFINED_SYSTEMS] at hmem
  have hq : resolveQtype (some qtype) detected = qtype := by
    simp only [resolveQtype]
    rw [if_pos hne]
  refine ⟨?_, ?_, ?_, ?_⟩
  · intro hc
    unfold getBatchSystem
    rw [hq, if_neg (not_not_intro hmem), if_neg hauto]
    unfold lookupOrCreate
    rw [hc]
    simp only [cacheHit]
    simp [pyTruthyOpt]
  · intro hc
    unfold getBatchSystem
    rw [hq, if_neg (not_not_intro hmem), if_neg hauto]
    unfold lookupOrCreate
    rw [hc]
    simp only [cacheHit]
    simp
  · intro hc htruthy hneq hdef
    unfold getBatchSystem
    rw [hq, if_neg (not_not_intro hmem), if_neg hauto]
    unfold lookupOrCreate
    rw [hc]
    simp only [cacheHit]
    rw [if_neg (by simp [htruthy, hneq])]
    unfold createBatch
    rw [hdef]
  · intro hc hdef
    unfold getBatchSystem
    rw [hq, if_neg (not_not_intro hmem), if_neg hauto]
    unfold lookupOrCreate
    rw [hc]
    simp only [cacheHit]
    unfold createBatch
    rw [hdef]

/-- Witness for C3: a cached slurm client is returned as is when no URI is
requested. -/
theorem c3_witness :
    getBatchSystem (some "slurm") true none "slurm" none
      ⟨fun b q => if b = true ∧ q = "slurm" then
         some ⟨0, "slurm", true, none⟩ else none, [], 1⟩ =
    (.ok ⟨0, "slurm", true, none⟩,
     ⟨fun b q => if b = true ∧ q = "slurm" then
        some ⟨0, "slurm", true, none⟩ else none, [], 1⟩) :=
  (c3_registry_cache
    ⟨fun b q => if b = true ∧ q = "slurm" then
       some ⟨0, "slurm", true, none⟩ else none, [], 1⟩
    "slurm" true none "slurm" none ⟨0, "slurm", true, none⟩
    (by decide) (by decide)).1 rfl

/-- C9: requesting qtype `'local'` — explicitly or through the detected
fallback — passes the DEFINED_SYSTEMS check but cannot produce a client:
`_default_batches` maps `'local'` to `(None, None)` and calling `None` as a
constructor raises `TypeError`. -/
theorem c9_local_not_constructible (st : RegState) (remote : Bool)
    (uri : Option String) (detected : String) (sq : Option String)
    (hc : st.cache remote "local" = none) :
    getBatchSystem (some "local") remote uri detected sq st =
      (.error (.typeError "NoneType object is not callable"), st) ∧
    getBatchSystem none remote uri "local" sq st =
      (.error (.typeError "NoneType object is not callable"), st) ∧
    "local" ∈ DEFINED_SYSTEMS ∧ defaultBatches "local" = some false := by
  refine ⟨?_, ?_, by decide, rfl⟩
  · unfold getBatchSystem
    rw [show resolveQtype (some "local") detected = "local" from rfl]
    rw [if_neg (not_not_intro (by decide : ("local" : String) ∈ DEFINED_SYSTEMS))]
    rw [if_neg (by decide : ¬("local" : String) = "auto")]
    unfold lookupOrCreate
    rw [hc]
    simp only [cacheHit]
    rfl
  · unfold getBatchSystem
    rw [show resolveQtype none "local" = "local" from rfl]
    rw [if_neg (not_not_intro (by decide : ("local" : String) ∈ DEFINED_SYSTEMS))]
    rw [if_neg (by decide : ¬("local" : String) = "auto")]
    unfold lookupOrCreate
    rw [hc]
    simp only [cacheHit]
    rfl

/-- C8: with no usable cached mode and a configured queue type that is
`auto`, unset, or invalid, detection probes for the sbatch, qsub and bsub
tools in that fixed order; the first found determines the backend, no tool
found resolves to `local`, and the result is always one of the defined
systems (detection is a total function and never raises). -/
theorem c8_auto_detection (overwrite : Bool) (mode0 : Option String)
    (conf : QueueConf) (which : String → Bool)
    (hmode : mode0 = none ∨ overwrite = true)
    (hconf : conf.queue_type.getD "auto" = "auto" ∨
      conf.queue_type.getD "auto" ∉ DEFINED_SYSTEMS)
    (hsb : conf.sbatch = none) (hqs : conf.qsub = none)
    (hbs : conf.bsub = none) :
    get_cluster_environment overwrite mode0 conf which =
      (if which "sbatch" then "slurm"
       else if which "qsub" then "torque"
       else if which "bsub" then "lsf"
       else "local") ∧
    get_cluster_environment overwrite mode0 conf which ∈ DEFINED_SYSTEMS := by
  have hprobe : detectProbe conf which =
      (if which "sbatch" then "slurm"
       else if which "qsub" then "torque"
       else if which "bsub" then "lsf"
       else "local") := by
    unfold detectProbe
    rw [hsb, hqs, hbs]
    rfl
  have hcompute : detectCompute conf which = detectProbe conf which := by
    unfold detectCompute
    rcases hconf with hconf | hconf
    · rw [hconf]
      rw [if_neg (not_not_intro (by decide : ("auto" : String) ∈ DEFINED_SYSTEMS))]
      rw [if_pos rfl]
    · rw [if_pos hconf]
  have henv : get_cluster_environment overwrite mode0 conf which =
      detectCompute conf which := by
    unfold get_cluster_environment
    rcases hmode with hmode | hmode
    · rw [hmode]
    · cases mode0 with
      | none => rfl
      | some m =>
        rw [hmode]
        simp
  refine ⟨by rw [henv, hcompute, hprobe], ?_⟩
  rw [henv, hcompute, hprobe]
  split_ifs <;> decide

/-- Witness for C8: with nothing configured and no tool on the path,
detection resolves to the local backend. -/
theorem c8_witness :
    get_cluster_environment false none ⟨none, none, none, none⟩
      (fun _ => false) = "local" :=
  (c8_auto_detection false none ⟨none, none, none, none⟩ (fun _ => false)
    (Or.inl rfl) (Or.inl rfl) rfl rfl rfl).1

/-- Witness for C9: on an empty registry, both the explicit and the
detected local path raise `TypeError`. -/
theorem c9_witness :
    getBatchSystem (some "local") false none "local" none ⟨fun _ _ => none, [], 0⟩ =
      (.error (.typeError "NoneType object is not callable"),
       ⟨fun _ _ => none, [], 0⟩) :=
  (c9_local_not_constructible ⟨fun _ _ => none, [], 0⟩ false none "local" none
    rfl).1

end Fyrd

